import Mathlib

/-
  Verification of the ShoppingCart core: entity validation (src/core/domain/models.py)
  and the order-placement service (src/core/application/order_service.py) composed
  with its storage adapters (src/adapters/*.py).

  Shallow embedding conventions:
  * Python ints are `Int`, prices are `Rat` (decimals), timestamps are `Nat`
    (a `datetime` value abstracted to a tick count; `datetime.now()` becomes an
    explicit `now` argument).  Optional arguments become `Option`.
  * A constructor that can `raise ValueError` becomes a function returning
    `Except VErr entity`; each `VErr` constructor stands for one distinct
    `ValueError` message of models.py.
  * `order_status` is dynamically typed in Python (any value may be passed);
    it is embedded as `PyVal`, with Python's `==` semantics (`1 == True`,
    `0 == False`) captured by `pyEq`, because the source check
    `order_status not in {True, False}` uses Python equality/hashing.
-/

namespace ShoppingCart

/-- A dynamically-typed Python value, covering the kinds of values relevant to
the `order_status` argument: booleans, ints, strings and `None`. -/
inductive PyVal where
  | bool (b : Bool)
  | int (n : Int)
  | str (s : String)
  | none
deriving DecidableEq, Repr

/-- Python `==` on `PyVal`: Python booleans compare equal to the integers 1 and 0
(`True == 1`, `False == 0`), which is what set membership `x in {True, False}`
uses.  Values of unrelated kinds compare unequal. -/
def pyEq : PyVal → PyVal → Bool
  | .bool a, .bool b => a == b
  | .bool a, .int n => (if a then (1 : Int) else 0) == n
  | .int n, .bool a => n == (if a then (1 : Int) else 0)
  | .int n, .int m => n == m
  | .str a, .str b => a == b
  | .none, .none => true
  | _, _ => false

/-- One constructor per distinct `ValueError` message raised by the entity
constructors in models.py (messages shared between entities, such as
"User ID must be greater than zero", share a constructor). -/
inductive VErr where
  | userIdZero      -- "User ID must be greater than zero"
  | userNameEmpty   -- "User name cannot be empty"
  | passwordEmpty   -- "Password cannot be empty"
  | roleInvalid     -- "Role must be 'user' or 'admin'"
  | productIdZero   -- "Product ID must be greater than zero"
  | productNameEmpty -- "Product name cannot be empty"
  | priceZero       -- "Price must be a positive number"
  | cartIdZero      -- "Cart ID must be greater than zero"
  | cartItemIdZero  -- "Cart item ID must be greater than zero"
  | quantityZero    -- "Quantity must be greater than zero"
  | orderIdZero     -- "Order ID must be greater than zero"
  | orderStatusInvalid -- "Order status must be true or false"
  | orderItemIdZero -- "Order item ID must be greater than zero"
deriving DecidableEq, Repr

structure User where
  user_id : Int
  user_name : String
  password : String
  created_at : Nat
  role : String
deriving DecidableEq, Repr

/-- `User.__init__` (models.py:34-57).  Checks in source order: user_id,
user_name, password, (created_at isinstance — always satisfied in the typed
embedding), role; `created_at or datetime.now()` becomes `getD now`. -/
def User.init (user_id : Int) (user_name password : String)
    (created_at : Option Nat) (role : String) (now : Nat) : Except VErr User :=
  if user_id ≤ 0 then .error .userIdZero
  else if user_name = "" then .error .userNameEmpty
  else if password = "" then .error .passwordEmpty
  else if ¬(role = "admin" ∨ role = "user") then .error .roleInvalid
  else .ok ⟨user_id, user_name, password, created_at.getD now, role⟩

structure Product where
  product_id : Int
  product_name : String
  description : String
  price : Rat
  created_at : Nat
deriving DecidableEq, Repr

/-- `Product.__init__` (models.py:92-113).  The source assigns the attributes
before validating; since a raising `__init__` discards the object, the observable
behaviour is validation-then-construction.  Checks in source order: product_id,
product_name, price. -/
def Product.init (product_id : Int) (product_name description : String)
    (price : Rat) (created_at : Option Nat) (now : Nat) : Except VErr Product :=
  if product_id ≤ 0 then .error .productIdZero
  else if product_name = "" then .error .productNameEmpty
  else if price ≤ 0 then .error .priceZero
  else .ok ⟨product_id, product_name, description, price, created_at.getD now⟩

structure Cart where
  cart_id : Int
  user_id : Int
  created_at : Nat
deriving DecidableEq, Repr

/-- `Cart.__init__` (models.py:138-148).  Checks in source order: cart_id, user_id. -/
def Cart.init (cart_id user_id : Int) (created_at : Option Nat) (now : Nat) :
    Except VErr Cart :=
  if cart_id ≤ 0 then .error .cartIdZero
  else if user_id ≤ 0 then .error .userIdZero
  else .ok ⟨cart_id, user_id, created_at.getD now⟩

structure CartItem where
  cart_item_id : Int
  cart_id : Int
  product_id : Int
  quantity : Int
  added_at : Option Nat
deriving DecidableEq, Repr

/-- `CartItem.__init__` (models.py:178-201).  Checks in source order:
cart_item_id, cart_id, product_id, quantity.  `added_at` is stored exactly as
passed (`self.added_at = added_at` — no `or datetime.now()` default). -/
def CartItem.init (cart_item_id cart_id product_id quantity : Int)
    (added_at : Option Nat) : Except VErr CartItem :=
  if cart_item_id ≤ 0 then .error .cartItemIdZero
  else if cart_id ≤ 0 then .error .cartIdZero
  else if product_id ≤ 0 then .error .productIdZero
  else if quantity ≤ 0 then .error .quantityZero
  else .ok ⟨cart_item_id, cart_id, product_id, quantity, added_at⟩

structure Order where
  order_id : Int
  user_id : Int
  order_status : PyVal
  created_at : Nat
deriving DecidableEq, Repr

/-- `Order.__init__` (models.py:229-248).  Checks in source order: order_id,
user_id, `order_status not in {True, False}` (Python set membership, i.e.
`pyEq` against the two booleans), then stores `order_status` verbatim and
defaults `created_at` to now. -/
def Order.init (order_id user_id : Int) (order_status : PyVal)
    (created_at : Option Nat) (now : Nat) : Except VErr Order :=
  if order_id ≤ 0 then .error .orderIdZero
  else if user_id ≤ 0 then .error .userIdZero
  else if ¬(pyEq order_status (.bool true) = true ∨ pyEq order_status (.bool false) = true)
    then .error .orderStatusInvalid
  else .ok ⟨order_id, user_id, order_status, created_at.getD now⟩

structure OrderItem where
  order_item_id : Int
  order_id : Int
  product_id : Int
  quantity : Int
  price : Rat
  created_at : Option Nat
deriving DecidableEq, Repr

/-- `OrderItem.__init__` (models.py:280-311).  Checks in source order:
order_item_id, order_id, product_id, quantity, price.  `created_at` is stored
exactly as passed (`self.created_at = created_at` — no default). -/
def OrderItem.init (order_item_id order_id product_id quantity : Int)
    (price : Rat) (created_at : Option Nat) : Except VErr OrderItem :=
  if order_item_id ≤ 0 then .error .orderItemIdZero
  else if order_id ≤ 0 then .error .orderIdZero
  else if product_id ≤ 0 then .error .productIdZero
  else if quantity ≤ 0 then .error .quantityZero
  else if price ≤ 0 then .error .priceZero
  else .ok ⟨order_item_id, order_id, product_id, quantity, price, created_at⟩

/-- One constructor per distinct runtime error that `place_order` composed with
the adapters can surface (all `ValueError`/`AttributeError` raises on its paths). -/
inductive PErr where
  | userNotFound        -- service: ValueError "User with ID not found" (order_service.py:38)
  | cartNotFoundService -- service: ValueError "No cart found for the user" (order_service.py:42)
  | cartNotFoundAdapter -- CartAdapter.get_cart: ValueError "Cart with ID ... does not exist"
  | emptyCart           -- service: ValueError "Cart is empty" (order_service.py:47)
  | productNotFound     -- get_product returned None, then `.price` fails (order_service.py:58)
  | cartItemNotFound    -- CartItemAdapter.delete_cart_item: ValueError "CartItem with ID ... does not exist"
  | productNotFoundUpdate -- ProductAdapter.update_product: ValueError "Product with ID ... does not exist"
  | validation (e : VErr) -- a models.py constructor raised
deriving DecidableEq, Repr

/-- The persistent store (one SQLAlchemy session/database).  Each table is the
list of its rows in insertion order.

Modelled from the spec: the ORM module defining `db` and the mapped classes
(imported by the adapters as `from src.core.domain.models import ..., db`) is
not under src/; per spec §3 "all identifiers are positive integers assigned by
the persistence layer on creation", the store carries the next fresh id for the
two tables the placement service inserts into, and per §4.3 lists are returned
in insertion order. -/
structure State where
  users : List User
  products : List Product
  carts : List Cart
  cartItems : List CartItem
  orders : List Order
  orderItems : List OrderItem
  nextOrderId : Int
  nextOrderItemId : Int
  now : Nat
deriving DecidableEq, Repr

/-- `UserAdapter.get_user` (user_adapter.py:24-31): primary-key lookup, returns
`None` when absent (no raise). -/
def get_user (s : State) (user_id : Int) : Option User :=
  s.users.find? (fun u => u.user_id == user_id)

/-- `CartAdapter.get_cart` (cart_adapter.py:22-38): primary-key lookup, raises
`ValueError "Cart with ID {cart_id} does not exist"` when absent — it never
returns `None`. -/
def get_cart (s : State) (cart_id : Int) : Except PErr Cart :=
  match s.carts.find? (fun c => c.cart_id == cart_id) with
  | Option.none => .error .cartNotFoundAdapter
  | some c => .ok c

/-- `ProductAdapter.get_product` (product_adapter.py:22-33): primary-key lookup,
returns `None` when absent. -/
def get_product (s : State) (product_id : Int) : Option Product :=
  s.products.find? (fun p => p.product_id == product_id)

/-- `CartItemAdapter.list_cart_items` (cart_item_adapter.py:96-112):
`SELECT ... WHERE cart_id = :cart_id`, rows in insertion order. -/
def listCartItems (s : State) (cart_id : Int) : List CartItem :=
  s.cartItems.filter (fun it => it.cart_id == cart_id)

/-- `CartItemAdapter.delete_cart_item` (cart_item_adapter.py:63-84): fetch by
primary key, raise if absent, else delete that row. -/
def delete_cart_item (s : State) (cart_item_id : Int) : Except PErr State :=
  match s.cartItems.find? (fun it => it.cart_item_id == cart_item_id) with
  | Option.none => .error .cartItemNotFound
  | some _ =>
      .ok { s with cartItems := s.cartItems.eraseP (fun it => it.cart_item_id == cart_item_id) }

/-- `ProductAdapter.update_product` (product_adapter.py:35-57): fetch by primary
key, raise `ValueError` if absent, else overwrite name, description and price of
the stored row.  No other table is touched. -/
def update_product (s : State) (p : Product) : Except PErr Unit × State :=
  match s.products.find? (fun q => q.product_id == p.product_id) with
  | Option.none => (.error .productNotFoundUpdate, s)
  | some _ =>
      (.ok (), { s with products := s.products.map (fun q =>
        if q.product_id == p.product_id then
          { q with product_name := p.product_name, description := p.description,
                   price := p.price }
        else q) })

/-- Python truthiness of a `Cart` instance: a plain object with no `__bool__`
or `__len__` is always truthy, so `if not cart:` can never fire on a returned
cart. -/
def cartTruthy (_ : Cart) : Bool := true

/-- Price of a stored product (total function; only used under an
existence hypothesis). -/
def priceOf (s : State) (product_id : Int) : Rat :=
  match get_product s product_id with
  | some p => p.price
  | Option.none => 0

/-- The per-item loop of `OrderService.place_order` (order_service.py:53-61):
for each cart item, build an `OrderItem` (id assigned by the persistence layer;
price read from the product table at this instant; `created_at` omitted, hence
`None`), persist it, then delete the source cart item.  A missing product makes
`get_product(...)` return `None` and the `.price` access raise
(`productNotFound`); any raise stops the loop, keeping all effects so far. -/
def migrate (oid : Int) : State → List CartItem → Except PErr Unit × State
  | s, [] => (.ok (), s)
  | s, it :: rest =>
    match get_product s it.product_id with
    | Option.none => (.error .productNotFound, s)
    | some p =>
      match OrderItem.init s.nextOrderItemId oid it.product_id it.quantity p.price Option.none with
      | .error e => (.error (.validation e), s)
      | .ok oi =>
        let s1 := { s with orderItems := s.orderItems ++ [oi],
                           nextOrderItemId := s.nextOrderItemId + 1 }
        match delete_cart_item s1 it.cart_item_id with
        | .error e => (.error e, s1)
        | .ok s2 => migrate oid s2 rest

/-- `OrderService.place_order` (order_service.py:22-63) composed with the
concrete adapters.  The result pairs the returned value (or first raised error)
with the store as left behind — failures after the order insert keep their
partial effects, exactly as the sequence of committed adapter calls does.
The order's id is the persistence-assigned `s.nextOrderId` (modelled from the
spec, §4.2 step 1: "Its generated id is the order id returned to the caller"). -/
def place_order (s : State) (user_id cart_id : Int) : Except PErr Int × State :=
  match get_user s user_id with
  | Option.none => (.error .userNotFound, s)
  | some _ =>
    match get_cart s cart_id with
    | .error e => (.error e, s)
    | .ok cart =>
      if cartTruthy cart = false then (.error .cartNotFoundService, s)
      else
        let items := listCartItems s cart.cart_id
        if items.isEmpty then (.error .emptyCart, s)
        else
          match Order.init s.nextOrderId user_id (.bool false) Option.none s.now with
          | .error e => (.error (.validation e), s)
          | .ok o =>
            let s1 := { s with orders := s.orders ++ [o], nextOrderId := s.nextOrderId + 1 }
            match migrate o.order_id s1 items with
            | (.error e, s2) => (.error e, s2)
            | (.ok _, s2) => (.ok o.order_id, s2)

/-- Well-formedness of a reachable store: every row was admitted through its
validating constructor (positive ids, quantities and prices), primary keys of
cart items are unique, and the fresh-id counters are ahead of every stored row. -/
def WF (s : State) : Bool :=
  s.users.all (fun u => 0 < u.user_id) &&
  s.products.all (fun p => 0 < p.product_id && 0 < p.price) &&
  s.cartItems.all (fun it => 0 < it.cart_item_id && 0 < it.cart_id &&
    0 < it.product_id && 0 < it.quantity) &&
  decide (s.cartItems.map (fun it => it.cart_item_id)).Nodup &&
  s.orders.all (fun o => o.order_id < s.nextOrderId) &&
  s.orderItems.all (fun oi => oi.order_id < s.nextOrderId) &&
  (1 ≤ s.nextOrderId && 1 ≤ s.nextOrderItemId)

/-! Concrete stores used to exhibit satisfiability of the theorems' hypotheses. -/

def demoUser : User := ⟨1, "u", "pw", 0, "user"⟩

def demoProduct : Product := ⟨1, "p", "d", 5, 0⟩

def demoCart : Cart := ⟨1, 1, 0⟩

def demoItem : CartItem := ⟨1, 1, 1, 2, Option.none⟩

/-- One user, one product (price 5), one cart owned by that user holding one
item (quantity 2). -/
def demoState : State :=
  ⟨[demoUser], [demoProduct], [demoCart], [demoItem], [], [], 1, 1, 7⟩

def demoNoUser : State := { demoState with users := [] }

def demoNoCart : State := { demoState with carts := [] }

def demoEmptyCart : State := { demoState with cartItems := [] }

/-- Same as `demoState` but the cart belongs to user 2 while user 1 places the order. -/
def demoForeignCart : State := { demoState with carts := [⟨1, 2, 0⟩] }

/-- A second cart item referencing product 9, which does not exist. -/
def demoBadItem : CartItem := ⟨2, 1, 9, 1, Option.none⟩

def demoMissingProduct : State := { demoState with cartItems := [demoItem, demoBadItem] }

/-- The demo product with its price changed from 5 to 7 (an update payload). -/
def demoNewProduct : Product := ⟨1, "p", "d", 7, 0⟩

/-! Helper lemmas about the store. -/

lemma eraseP_eq_filter_of_nodup (k : Int) :
    ∀ (l : List CartItem), (l.map (fun it => it.cart_item_id)).Nodup →
      l.eraseP (fun x => x.cart_item_id == k) = l.filter (fun x => x.cart_item_id != k)
  | [], _ => rfl
  | a :: t, h => by
      rw [List.map_cons, List.nodup_cons] at h
      by_cases hak : a.cart_item_id = k
      · subst hak
        simp only [List.eraseP_cons, beq_self_eq_true, cond_true, List.filter_cons,
          bne_self_eq_false, Bool.false_eq_true, if_false]
        refine (List.filter_eq_self.mpr ?_).symm
        intro x hx
        simp only [bne_iff_ne, ne_eq]
        intro hxk
        exact h.1 (hxk ▸ List.mem_map_of_mem _ hx)
      · have hbeq : (a.cart_item_id == k) = false := by simp [hak]
        simp only [List.eraseP_cons, hbeq, cond_false, List.filter_cons, bne, hbeq,
          Bool.not_false, if_true]
        exact congrArg (List.cons a) (eraseP_eq_filter_of_nodup k t h.2)

lemma nodup_ids_filter {p : CartItem → Bool} {l : List CartItem}
    (h : (l.map (fun it => it.cart_item_id)).Nodup) :
    ((l.filter p).map (fun it => it.cart_item_id)).Nodup :=
  ((l.filter_sublist).map _).nodup h

/-- Effect of the migration loop on a prefix `pre` of well-formed cart items
whose products all exist: the loop runs through `pre`, appending one order item
per cart item (with the product's current price) and deleting exactly the
processed cart items, then continues with `tail` from the resulting store. -/
lemma migrate_append (oid : Int) (tail pre : List CartItem) : ∀ (s : State),
    (∀ it ∈ pre, it ∈ s.cartItems) →
    (s.cartItems.map (fun it => it.cart_item_id)).Nodup →
    (pre.map (fun it => it.cart_item_id)).Nodup →
    (∀ it ∈ pre, 0 < it.product_id ∧ 0 < it.quantity) →
    (∀ it ∈ pre, ∃ p, get_product s it.product_id = some p ∧ 0 < p.price) →
    1 ≤ s.nextOrderItemId → 1 ≤ oid →
    ∃ s', migrate oid s (pre ++ tail) = migrate oid s' tail ∧
      s'.users = s.users ∧ s'.products = s.products ∧ s'.carts = s.carts ∧
      s'.orders = s.orders ∧ s'.nextOrderId = s.nextOrderId ∧ s'.now = s.now ∧
      1 ≤ s'.nextOrderItemId ∧
      (∃ new, s'.orderItems = s.orderItems ++ new ∧
        (∀ oi ∈ new, oi.order_id = oid) ∧
        new.map (fun oi => (oi.product_id, oi.quantity, oi.price))
          = pre.map (fun it => (it.product_id, it.quantity, priceOf s it.product_id))) ∧
      s'.cartItems = s.cartItems.filter
        (fun x => !((pre.map (fun it => it.cart_item_id)).contains x.cart_item_id)) ∧
      (s'.cartItems.map (fun it => it.cart_item_id)).Nodup := by
  induction pre with
  | nil =>
      intro s hmem hnd hndp hpos hprod hni hoid
      exact ⟨s, rfl, rfl, rfl, rfl, rfl, rfl, rfl, hni,
        ⟨[], by simp, by simp, by simp⟩, by simp, hnd⟩
  | cons it pre ih =>
      intro s hmem hnd hndp hpos hprod hni hoid
      obtain ⟨p, hp, hpp⟩ := hprod it (List.mem_cons_self it pre)
      obtain ⟨hpid, hqty⟩ := hpos it (List.mem_cons_self it pre)
      rw [List.map_cons, List.nodup_cons] at hndp
      set oi : OrderItem :=
        ⟨s.nextOrderItemId, oid, it.product_id, it.quantity, p.price, Option.none⟩ with hoi
      have hinit : OrderItem.init s.nextOrderItemId oid it.product_id it.quantity
          p.price Option.none = Except.ok oi := by
        unfold OrderItem.init
        rw [if_neg (by omega), if_neg (by omega), if_neg (by omega), if_neg (by omega),
          if_neg (not_le.mpr hpp)]
      set s1 : State := { s with orderItems := s.orderItems ++ [oi],
                                 nextOrderItemId := s.nextOrderItemId + 1 } with hs1
      set s2 : State := { s1 with cartItems :=
          (s1.cartItems.eraseP (fun x => x.cart_item_id == it.cart_item_id)) } with hs2
      have hdel : delete_cart_item s1 it.cart_item_id = Except.ok s2 := by
        unfold delete_cart_item
        obtain ⟨w, hw⟩ : ∃ w, s1.cartItems.find?
            (fun x => x.cart_item_id == it.cart_item_id) = some w :=
          Option.isSome_iff_exists.mp (List.find?_isSome.mpr
            ⟨it, hmem it (List.mem_cons_self it pre), by simp⟩)
        rw [hw]
      have hstep : migrate oid s ((it :: pre) ++ tail) = migrate oid s2 (pre ++ tail) := by
        rw [List.cons_append]
        simp only [migrate, hp, hinit, hdel]
      have hci2 : s2.cartItems
          = s.cartItems.filter (fun x => x.cart_item_id != it.cart_item_id) := by
        rw [hs2]
        exact eraseP_eq_filter_of_nodup it.cart_item_id s.cartItems hnd
      have hnd2 : (s2.cartItems.map (fun x => x.cart_item_id)).Nodup := by
        rw [hci2]; exact nodup_ids_filter hnd
      have hmem2 : ∀ x ∈ pre, x ∈ s2.cartItems := by
        intro x hx
        rw [hci2, List.mem_filter]
        refine ⟨hmem x (List.mem_cons_of_mem it hx), ?_⟩
        simp only [bne_iff_ne, ne_eq]
        intro hxk
        exact hndp.1 (hxk ▸ List.mem_map_of_mem _ hx)
      have hprod2 : ∀ x ∈ pre, ∃ q, get_product s2 x.product_id = some q ∧ 0 < q.price := by
        intro x hx
        exact hprod x (List.mem_cons_of_mem it hx)
      obtain ⟨s', heq, hus, hps, hcs, hos, hnoid, hnow, hni', ⟨new, hoieq, hoidall, hproj⟩,
          hcieq, hnd'⟩ :=
        ih s2 hmem2 hnd2 hndp.2 (fun x hx => hpos x (List.mem_cons_of_mem it hx)) hprod2
          (by simp [hs2, hs1]; omega) hoid
      refine ⟨s', by rw [hstep, heq], hus, hps, hcs, hos, hnoid, hnow, hni',
        ⟨oi :: new, ?_, ?_, ?_⟩, ?_, hnd'⟩
      · rw [hoieq]; simp [hs2, hs1]
      · intro x hx
        rcases List.mem_cons.mp hx with hx | hx
        · rw [hx]
        · exact hoidall x hx
      · rw [List.map_cons, hproj, List.map_cons]
        have hpr : priceOf s it.product_id = p.price := by
          unfold priceOf; rw [hp]
        rw [hpr]
        rfl
      · rw [hcieq, hci2, List.filter_filter]
        refine List.filter_congr ?_
        intro x _
        simp only [List.map_cons, List.contains_cons, Bool.not_or, bne]
        cases hb : (x.cart_item_id == it.cart_item_id) <;>
          cases hc : ((pre.map (fun i => i.cart_item_id)).contains x.cart_item_id) <;> simp

lemma contains_ids_iff {l : List CartItem} {k : Int} :
    (l.map (fun it => it.cart_item_id)).contains k = true ↔ ∃ y ∈ l, y.cart_item_id = k := by
  simp [List.contains_eq_any_beq, List.any_eq_true, eq_comm]

/-- Deleting exactly the cart items listed for `cid` (by their primary keys)
from a store with unique cart-item keys removes exactly the rows of that cart. -/
lemma deleted_listed_items (s : State) (cid : Int)
    (hnd : (s.cartItems.map (fun it => it.cart_item_id)).Nodup) :
    s.cartItems.filter (fun x =>
        !(((listCartItems s cid).map (fun it => it.cart_item_id)).contains x.cart_item_id))
      = s.cartItems.filter (fun x => x.cart_id != cid) := by
  refine List.filter_congr ?_
  intro x hx
  cases hc : (x.cart_id == cid) with
  | true =>
      have hxl : x ∈ listCartItems s cid := List.mem_filter.mpr ⟨hx, hc⟩
      have hcon : ((listCartItems s cid).map
          (fun it => it.cart_item_id)).contains x.cart_item_id = true :=
        contains_ids_iff.mpr ⟨x, hxl, rfl⟩
      rw [hcon]
      simp [bne, hc]
  | false =>
      have hcon : ((listCartItems s cid).map
          (fun it => it.cart_item_id)).contains x.cart_item_id = false := by
        by_contra hcontra
        obtain ⟨y, hyl, hyk⟩ :=
          contains_ids_iff.mp (Bool.not_eq_false _ ▸ hcontra)
        have hy : y ∈ s.cartItems := (List.mem_filter.mp hyl).1
        have hxy : y = x := List.inj_on_of_nodup_map hnd hy hx hyk
        rw [hxy] at hyl
        have hxc := (List.mem_filter.mp hyl).2
        rw [hc] at hxc
        exact Bool.false_ne_true hxc
      rw [hcon]
      simp [bne, hc]

lemma get_cart_ok_iff {s : State} {cid : Int} {c : Cart} :
    get_cart s cid = Except.ok c ↔ s.carts.find? (fun x => x.cart_id == cid) = some c := by
  unfold get_cart
  cases h : s.carts.find? (fun x => x.cart_id == cid) <;> simp

/-- Success characterization of `place_order`: on a well-formed store where the
user exists, the cart exists and is non-empty, and every listed item's product
exists, placement returns the fresh order id, appends exactly one order with
status `False`, appends one order item per listed cart item with the product's
current price, deletes exactly that cart's items, and touches no other table. -/
lemma place_order_spec (s : State) (uid cid : Int) (c : Cart)
    (hwf : WF s = true)
    (hu : (get_user s uid).isSome = true)
    (hc : get_cart s cid = Except.ok c)
    (hne : ¬ listCartItems s c.cart_id = [])
    (hprods : ∀ it ∈ listCartItems s c.cart_id, (get_product s it.product_id).isSome = true) :
    ∃ s', place_order s uid cid = (Except.ok s.nextOrderId, s') ∧
      s'.users = s.users ∧ s'.products = s.products ∧ s'.carts = s.carts ∧
      s'.orders = s.orders ++ [⟨s.nextOrderId, uid, PyVal.bool false, s.now⟩] ∧
      (∃ new, s'.orderItems = s.orderItems ++ new ∧
        (∀ oi ∈ new, oi.order_id = s.nextOrderId) ∧
        new.map (fun oi => (oi.product_id, oi.quantity, oi.price))
          = (listCartItems s c.cart_id).map
              (fun it => (it.product_id, it.quantity, priceOf s it.product_id))) ∧
      s'.cartItems = s.cartItems.filter (fun x => x.cart_id != c.cart_id) ∧
      s'.nextOrderId = s.nextOrderId + 1 ∧ s'.now = s.now := by
  simp only [WF, Bool.and_eq_true, List.all_eq_true, decide_eq_true_eq] at hwf
  obtain ⟨⟨⟨⟨⟨⟨husers, hprices⟩, hitems⟩, hnodup⟩, horders⟩, horderitems⟩, hnoid, hnoiid⟩ := hwf
  obtain ⟨u, hu'⟩ := Option.isSome_iff_exists.mp hu
  rw [get_cart_ok_iff] at hc
  have hufind : s.users.find? (fun x => x.user_id == uid) = some u := hu'
  have huid : 0 < uid := by
    have h1 : u.user_id = uid := by simpa using List.find?_some hufind
    have h2 := husers u (List.mem_of_find?_eq_some hufind)
    omega
  have hinit : Order.init s.nextOrderId uid (PyVal.bool false) Option.none s.now
      = Except.ok ⟨s.nextOrderId, uid, PyVal.bool false, s.now⟩ := by
    unfold Order.init
    rw [if_neg (by omega), if_neg (by omega), if_neg (by decide)]
    rfl
  have hmem1 : ∀ it ∈ listCartItems s c.cart_id, it ∈ s.cartItems :=
    fun it hit => (List.mem_filter.mp hit).1
  have hndp : ((listCartItems s c.cart_id).map (fun it => it.cart_item_id)).Nodup :=
    nodup_ids_filter hnodup
  have hpos : ∀ it ∈ listCartItems s c.cart_id, 0 < it.product_id ∧ 0 < it.quantity := by
    intro it hit
    have h := hitems it (List.mem_filter.mp hit).1
    exact ⟨h.1.2, h.2⟩
  have hprod1 : ∀ it ∈ listCartItems s c.cart_id,
      ∃ p, get_product s it.product_id = some p ∧ 0 < p.price := by
    intro it hit
    obtain ⟨p, hp⟩ := Option.isSome_iff_exists.mp (hprods it hit)
    exact ⟨p, hp, (hprices p (List.mem_of_find?_eq_some hp)).2⟩
  obtain ⟨s', heq, hus, hps, hcs, hos, hnoid', hnow, hni', ⟨new, hoieq, hoidall, hproj⟩,
      hcieq, hnd'⟩ :=
    migrate_append s.nextOrderId [] (listCartItems s c.cart_id)
      ({ s with orders := s.orders ++ [⟨s.nextOrderId, uid, PyVal.bool false, s.now⟩],
                nextOrderId := s.nextOrderId + 1 })
      hmem1 hnodup hndp hpos hprod1 hnoiid hnoid
  rw [List.append_nil] at heq
  have hmig : migrate s.nextOrderId
      ({ s with orders := s.orders ++ [⟨s.nextOrderId, uid, PyVal.bool false, s.now⟩],
                nextOrderId := s.nextOrderId + 1 })
      (listCartItems s c.cart_id) = (Except.ok (), s') := heq.trans rfl
  refine ⟨s', ?_, hus, hps, hcs, hos, ⟨new, hoieq, hoidall, hproj⟩,
    hcieq.trans (deleted_listed_items s c.cart_id hnodup), hnoid', hnow⟩
  have hugot : get_user s uid = some u := hu'
  have hcfind : get_cart s cid = Except.ok c := get_cart_ok_iff.mpr hc
  have hneb : ¬((listCartItems s c.cart_id).isEmpty = true) := by
    rw [List.isEmpty_iff]; exact hne
  simp only [place_order, hugot, hcfind]
  rw [if_neg (show ¬(cartTruthy c = false) by simp [cartTruthy])]
  rw [if_neg hneb]
  simp only [hinit, hmig]

/-- `CartAdapter.get_cart` can only fail with its own cart-does-not-exist error. -/
lemma get_cart_error {s : State} {cid : Int} {e : PErr}
    (h : get_cart s cid = Except.error e) : e = PErr.cartNotFoundAdapter := by
  unfold get_cart at h
  cases hf : s.carts.find? (fun x => x.cart_id == cid) <;> rw [hf] at h
  · exact (Except.error.injEq _ _ ▸ h).symm
  · exact absurd h (by simp)

/-- `CartItemAdapter.delete_cart_item` can only fail with its own error. -/
lemma delete_cart_item_error {s : State} {k : Int} {e : PErr}
    (h : delete_cart_item s k = Except.error e) : e = PErr.cartItemNotFound := by
  unfold delete_cart_item at h
  cases hf : s.cartItems.find? (fun x => x.cart_item_id == k) <;> rw [hf] at h
  · exact (Except.error.injEq _ _ ▸ h).symm
  · exact absurd h (by simp)

/-- `ProductAdapter.update_product` writes only to the product table: the order
and order-item tables (and everything else except products) are untouched,
whether the update succeeds or fails. -/
lemma update_product_frame (s : State) (q : Product) :
    (update_product s q).2.orderItems = s.orderItems ∧
    (update_product s q).2.orders = s.orders ∧
    (update_product s q).2.cartItems = s.cartItems ∧
    (update_product s q).2.users = s.users ∧
    (update_product s q).2.carts = s.carts := by
  unfold update_product
  cases hf : s.products.find? (fun x => x.product_id == q.product_id) <;> simp

/-- The migration loop never produces the service's own "No cart found for the
user" error. -/
lemma migrate_no_service_error (oid : Int) :
    ∀ (items : List CartItem) (s : State),
      (migrate oid s items).1 ≠ Except.error PErr.cartNotFoundService
  | [], _ => by simp [migrate]
  | it :: rest, s => by
      simp only [migrate]
      split
      · simp
      · split
        · simp
        · split
          · rename_i heq
            have he := delete_cart_item_error heq
            subst he
            simp
          · exact migrate_no_service_error oid rest _

/-! Claim theorems. -/

/-- C1: in every well-formed store where user `uid` exists, cart `cid` exists,
and the cart holds at least one item, each referencing an existing product,
`place_order uid cid` succeeds and returns the persistence-assigned id of
exactly one newly created order (an id no pre-existing order has) with
`user_id = uid` and `order_status = False`; exactly one order item per original
cart item is created for that order, with the original `(product_id, quantity)`
pairs and the referenced product's price at call time; afterwards the cart
lists zero items but the cart row itself still exists. -/
theorem C1_place_order_success (s : State) (uid cid : Int) (c : Cart)
    (hwf : WF s = true)
    (hu : (get_user s uid).isSome = true)
    (hc : get_cart s cid = Except.ok c)
    (hne : ¬ listCartItems s c.cart_id = [])
    (hp : ∀ it ∈ listCartItems s c.cart_id, (get_product s it.product_id).isSome = true) :
    ∃ s', place_order s uid cid = (Except.ok s.nextOrderId, s')
      ∧ (∀ o ∈ s.orders, o.order_id ≠ s.nextOrderId)
      ∧ s'.orders = s.orders ++ [⟨s.nextOrderId, uid, PyVal.bool false, s.now⟩]
      ∧ (∃ new, s'.orderItems = s.orderItems ++ new
          ∧ (∀ oi ∈ s.orderItems, oi.order_id ≠ s.nextOrderId)
          ∧ (∀ oi ∈ new, oi.order_id = s.nextOrderId)
          ∧ new.map (fun oi => (oi.product_id, oi.quantity, oi.price))
              = (listCartItems s c.cart_id).map
                  (fun it => (it.product_id, it.quantity, priceOf s it.product_id)))
      ∧ listCartItems s' c.cart_id = []
      ∧ s'.carts = s.carts ∧ c ∈ s'.carts := by
  obtain ⟨s', hrun, hus, hps, hcs, hos, ⟨new, hoieq, hoidall, hproj⟩, hci, hnid, hnow⟩ :=
    place_order_spec s uid cid c hwf hu hc hne hp
  have hwf' := hwf
  simp only [WF, Bool.and_eq_true, List.all_eq_true, decide_eq_true_eq] at hwf'
  obtain ⟨⟨⟨⟨⟨⟨husers, hprices⟩, hitems⟩, hnodup⟩, horders⟩, horderitems⟩, hnoid, hnoiid⟩ := hwf'
  refine ⟨s', hrun, ?_, hos, ⟨new, hoieq, ?_, hoidall, hproj⟩, ?_, hcs, ?_⟩
  · intro o ho
    have := horders o ho
    omega
  · intro oi hoi
    have := horderitems oi hoi
    omega
  · unfold listCartItems
    rw [hci, List.filter_filter]
    refine List.filter_eq_nil_iff.mpr ?_
    intro a _
    cases hb : (a.cart_id == c.cart_id) <;> simp [hb, bne]
  · rw [hcs]
    rw [get_cart_ok_iff] at hc
    exact List.mem_of_find?_eq_some hc

/-- Satisfiability witness for C1 at the one-user, one-item demo store. -/
theorem C1_witness : ∃ s', place_order demoState 1 1 = (Except.ok 1, s')
      ∧ (∀ o ∈ demoState.orders, o.order_id ≠ 1)
      ∧ s'.orders = demoState.orders ++ [⟨1, 1, PyVal.bool false, 7⟩]
      ∧ (∃ new, s'.orderItems = demoState.orderItems ++ new
          ∧ (∀ oi ∈ demoState.orderItems, oi.order_id ≠ 1)
          ∧ (∀ oi ∈ new, oi.order_id = 1)
          ∧ new.map (fun oi => (oi.product_id, oi.quantity, oi.price))
              = (listCartItems demoState demoCart.cart_id).map
                  (fun it => (it.product_id, it.quantity, priceOf demoState it.product_id)))
      ∧ listCartItems s' demoCart.cart_id = []
      ∧ s'.carts = demoState.carts ∧ demoCart ∈ s'.carts :=
  C1_place_order_success demoState 1 1 demoCart (by decide) rfl rfl (by decide) (by decide)

/-- C2: the three preconditions are checked in the fixed order user-exists,
cart-exists, cart-non-empty; the first violated one aborts the call with its
error — the service's `UserNotFound`, the cart adapter's cart-does-not-exist
`ValueError` (the `CartNotFound` of the taxonomy), or the service's `EmptyCart`
— and the store is returned exactly as it was: no order, order item, or
cart-item deletion happens. -/
theorem C2_preconditions_short_circuit (s : State) (uid cid : Int) :
    (get_user s uid = Option.none →
      place_order s uid cid = (Except.error PErr.userNotFound, s))
    ∧ ((get_user s uid).isSome = true →
        s.carts.find? (fun x => x.cart_id == cid) = Option.none →
        place_order s uid cid = (Except.error PErr.cartNotFoundAdapter, s))
    ∧ (∀ c, (get_user s uid).isSome = true →
        get_cart s cid = Except.ok c →
        listCartItems s c.cart_id = [] →
        place_order s uid cid = (Except.error PErr.emptyCart, s)) := by
  refine ⟨?_, ?_, ?_⟩
  · intro h
    simp only [place_order, h]
  · intro hu hf
    obtain ⟨u, hu'⟩ := Option.isSome_iff_exists.mp hu
    have hu'' : get_user s uid = some u := hu'
    have hg : get_cart s cid = Except.error PErr.cartNotFoundAdapter := by
      unfold get_cart; rw [hf]
    simp only [place_order, hu'', hg]
  · intro c hu hc hemp
    obtain ⟨u, hu'⟩ := Option.isSome_iff_exists.mp hu
    have hu'' : get_user s uid = some u := hu'
    simp only [place_order, hu'', hc]
    rw [if_neg (show ¬(cartTruthy c = false) by simp [cartTruthy])]
    rw [if_pos (show (listCartItems s c.cart_id).isEmpty = true from
      List.isEmpty_iff.mpr hemp)]

/-- Satisfiability witness for C2: each precondition failure at a concrete store. -/
theorem C2_witness :
    place_order demoNoUser 1 1 = (Except.error PErr.userNotFound, demoNoUser)
    ∧ place_order demoNoCart 1 1 = (Except.error PErr.cartNotFoundAdapter, demoNoCart)
    ∧ place_order demoEmptyCart 1 1 = (Except.error PErr.emptyCart, demoEmptyCart) :=
  ⟨(C2_preconditions_short_circuit demoNoUser 1 1).1 rfl,
   (C2_preconditions_short_circuit demoNoCart 1 1).2.1 rfl rfl,
   (C2_preconditions_short_circuit demoEmptyCart 1 1).2.2 demoCart rfl rfl rfl⟩

/-- C9: composed with `CartAdapter`, whose `get_cart` raises rather than
returning `None`, the service's own "No cart found for the user" branch
(order_service.py:41-42) is dead: no input can make `place_order` surface it. -/
theorem C9_service_cart_branch_unreachable (s : State) (uid cid : Int) :
    (place_order s uid cid).1 ≠ Except.error PErr.cartNotFoundService := by
  simp only [place_order]
  split
  · simp
  · split
    · rename_i e heq
      have he := get_cart_error heq
      subst he
      simp
    · split
      · rename_i hct
        exact absurd hct (by simp [cartTruthy])
      · split
        · simp
        · split
          · simp
          · split
            · rename_i e s2 heq
              intro hcon
              have he : e = PErr.cartNotFoundService := Except.error.inj hcon
              subst he
              exact migrate_no_service_error _ _ _ (by rw [heq])
            · simp

/-- C7: placement is not idempotent — after a successful `place_order uid cid`,
repeating the call with no intervening cart mutation fails with `EmptyCart`
and leaves the store untouched (no new order or order item). -/
theorem C7_second_call_empty_cart (s : State) (uid cid : Int) (c : Cart)
    (hwf : WF s = true)
    (hu : (get_user s uid).isSome = true)
    (hc : get_cart s cid = Except.ok c)
    (hne : ¬ listCartItems s c.cart_id = [])
    (hp : ∀ it ∈ listCartItems s c.cart_id, (get_product s it.product_id).isSome = true) :
    ∃ s', place_order s uid cid = (Except.ok s.nextOrderId, s')
      ∧ place_order s' uid cid = (Except.error PErr.emptyCart, s') := by
  obtain ⟨s', hrun, hus, hps, hcs, hos, ⟨new, hoieq, hoidall, hproj⟩, hci, hnid, hnow⟩ :=
    place_order_spec s uid cid c hwf hu hc hne hp
  obtain ⟨u, hu'⟩ := Option.isSome_iff_exists.mp hu
  have hu2 : get_user s' uid = some u := by
    unfold get_user
    rw [hus]
    exact hu'
  have hc2 : get_cart s' cid = Except.ok c := by
    rw [get_cart_ok_iff] at hc ⊢
    rw [hcs]
    exact hc
  have hempty : listCartItems s' c.cart_id = [] := by
    unfold listCartItems
    rw [hci, List.filter_filter]
    refine List.filter_eq_nil_iff.mpr ?_
    intro a _
    cases hb : (a.cart_id == c.cart_id) <;> simp [hb, bne]
  refine ⟨s', hrun, ?_⟩
  simp only [place_order, hu2, hc2]
  rw [if_neg (show ¬(cartTruthy c = false) by simp [cartTruthy])]
  rw [if_pos (show (listCartItems s' c.cart_id).isEmpty = true from
    List.isEmpty_iff.mpr hempty)]

/-- Satisfiability witness for C7 at the demo store. -/
theorem C7_witness : ∃ s', place_order demoState 1 1 = (Except.ok 1, s')
      ∧ place_order s' 1 1 = (Except.error PErr.emptyCart, s') :=
  C7_second_call_empty_cart demoState 1 1 demoCart (by decide) rfl rfl (by decide) (by decide)

/-- C8: `place_order` never compares the cart's `user_id` with the supplied
`uid`: with the user existing and a non-empty cart owned by a *different*
user, placement still succeeds — the service has no ownership error. -/
theorem C8_no_ownership_check (s : State) (uid cid : Int) (c : Cart)
    (hwf : WF s = true)
    (hu : (get_user s uid).isSome = true)
    (hc : get_cart s cid = Except.ok c)
    (hforeign : c.user_id ≠ uid)
    (hne : ¬ listCartItems s c.cart_id = [])
    (hp : ∀ it ∈ listCartItems s c.cart_id, (get_product s it.product_id).isSome = true) :
    c.user_id ≠ uid ∧ ∃ s', place_order s uid cid = (Except.ok s.nextOrderId, s') := by
  obtain ⟨s', hrun, _⟩ := place_order_spec s uid cid c hwf hu hc hne hp
  exact ⟨hforeign, s', hrun⟩

/-- Satisfiability witness for C8: user 1 places the order from a cart owned by user 2. -/
theorem C8_witness : (2 : Int) ≠ 1 ∧
    ∃ s', place_order demoForeignCart 1 1 = (Except.ok 1, s') :=
  C8_no_ownership_check demoForeignCart 1 1 ⟨1, 2, 0⟩ (by decide) rfl rfl (by decide)
    (by decide) (by decide)

/-- C4: the captured order-item prices are permanently detached from later
product price changes — after a successful placement, running the product
update path with any payload leaves the order-item table exactly as it was,
so every order item keeps the price captured at placement time. -/
theorem C4_price_detached_from_update (s : State) (uid cid : Int) (c : Cart)
    (hwf : WF s = true)
    (hu : (get_user s uid).isSome = true)
    (hc : get_cart s cid = Except.ok c)
    (hne : ¬ listCartItems s c.cart_id = [])
    (hp : ∀ it ∈ listCartItems s c.cart_id, (get_product s it.product_id).isSome = true) :
    ∃ s', place_order s uid cid = (Except.ok s.nextOrderId, s')
      ∧ ∀ q : Product, (update_product s' q).2.orderItems = s'.orderItems := by
  obtain ⟨s', hrun, _⟩ := place_order_spec s uid cid c hwf hu hc hne hp
  exact ⟨s', hrun, fun q => (update_product_frame s' q).1⟩

/-- Satisfiability witness for C4 at the demo store (covers the price-5-to-7 update). -/
theorem C4_witness : ∃ s', place_order demoState 1 1 = (Except.ok 1, s')
      ∧ ∀ q : Product, (update_product s' q).2.orderItems = s'.orderItems :=
  C4_price_detached_from_update demoState 1 1 demoCart (by decide) rfl rfl (by decide)
    (by decide)

/-- C3: if during item migration the product of the k-th listed cart item no
longer exists, `place_order` stops with the `ProductNotFound` data-integrity
failure; the already-created order row remains with exactly the first k-1
order items, the first k-1 cart items are already deleted, and the cart items
from the k-th onward are still listed for the cart — no compensating rollback
happens.  (`pre`, `bad`, `rest` are the first k-1 items, the k-th, and the rest.) -/
theorem C3_partial_failure (s : State) (uid cid : Int) (c : Cart)
    (pre : List CartItem) (bad : CartItem) (rest : List CartItem)
    (hwf : WF s = true)
    (hu : (get_user s uid).isSome = true)
    (hc : get_cart s cid = Except.ok c)
    (hsplit : listCartItems s c.cart_id = pre ++ bad :: rest)
    (hpre : ∀ it ∈ pre, (get_product s it.product_id).isSome = true)
    (hbad : get_product s bad.product_id = Option.none) :
    ∃ s', place_order s uid cid = (Except.error PErr.productNotFound, s')
      ∧ s'.orders = s.orders ++ [⟨s.nextOrderId, uid, PyVal.bool false, s.now⟩]
      ∧ (∃ new, s'.orderItems = s.orderItems ++ new
          ∧ new.length = pre.length
          ∧ (∀ oi ∈ new, oi.order_id = s.nextOrderId)
          ∧ new.map (fun oi => (oi.product_id, oi.quantity, oi.price))
              = pre.map (fun it => (it.product_id, it.quantity, priceOf s it.product_id)))
      ∧ s'.cartItems = s.cartItems.filter (fun x =>
          !((pre.map (fun it => it.cart_item_id)).contains x.cart_item_id))
      ∧ (∀ x ∈ bad :: rest, x ∈ listCartItems s' c.cart_id)
      ∧ s'.carts = s.carts := by
  have hwf' := hwf
  simp only [WF, Bool.and_eq_true, List.all_eq_true, decide_eq_true_eq] at hwf'
  obtain ⟨⟨⟨⟨⟨⟨husers, hprices⟩, hitems⟩, hnodup⟩, horders⟩, horderitems⟩, hnoid, hnoiid⟩ := hwf'
  obtain ⟨u, hu'⟩ := Option.isSome_iff_exists.mp hu
  have hufind : s.users.find? (fun x => x.user_id == uid) = some u := hu'
  rw [get_cart_ok_iff] at hc
  have huid : 0 < uid := by
    have h1 : u.user_id = uid := by simpa using List.find?_some hufind
    have h2 := husers u (List.mem_of_find?_eq_some hufind)
    omega
  have hinit : Order.init s.nextOrderId uid (PyVal.bool false) Option.none s.now
      = Except.ok ⟨s.nextOrderId, uid, PyVal.bool false, s.now⟩ := by
    unfold Order.init
    rw [if_neg (by omega), if_neg (by omega), if_neg (by decide)]
    rfl
  have hndlist : ((listCartItems s c.cart_id).map (fun it => it.cart_item_id)).Nodup :=
    nodup_ids_filter hnodup
  rw [hsplit, List.map_append] at hndlist
  obtain ⟨hndpre, hndrest, hdisj⟩ := List.nodup_append.mp hndlist
  have hmem1 : ∀ it ∈ pre, it ∈ s.cartItems := by
    intro it hit
    have : it ∈ listCartItems s c.cart_id := by
      rw [hsplit]; exact List.mem_append_left _ hit
    exact (List.mem_filter.mp this).1
  have hpos : ∀ it ∈ pre, 0 < it.product_id ∧ 0 < it.quantity := by
    intro it hit
    have h := hitems it (hmem1 it hit)
    exact ⟨h.1.2, h.2⟩
  have hprod1 : ∀ it ∈ pre, ∃ p, get_product s it.product_id = some p ∧ 0 < p.price := by
    intro it hit
    obtain ⟨p, hp⟩ := Option.isSome_iff_exists.mp (hpre it hit)
    exact ⟨p, hp, (hprices p (List.mem_of_find?_eq_some hp)).2⟩
  obtain ⟨s', heq, hus, hps, hcs, hos, hnoid', hnow, hni', ⟨new, hoieq, hoidall, hproj⟩,
      hcieq, hnd'⟩ :=
    migrate_append s.nextOrderId (bad :: rest) pre
      ({ s with orders := s.orders ++ [⟨s.nextOrderId, uid, PyVal.bool false, s.now⟩],
                nextOrderId := s.nextOrderId + 1 })
      hmem1 hnodup hndpre hpos hprod1 hnoiid hnoid
  have hbad2 : get_product s' bad.product_id = Option.none := by
    unfold get_product
    rw [hps]
    exact hbad
  have hstop : migrate s.nextOrderId s' (bad :: rest)
      = (Except.error PErr.productNotFound, s') := by
    simp only [migrate, hbad2]
  have hfull : migrate s.nextOrderId
      ({ s with orders := s.orders ++ [⟨s.nextOrderId, uid, PyVal.bool false, s.now⟩],
                nextOrderId := s.nextOrderId + 1 })
      (pre ++ bad :: rest) = (Except.error PErr.productNotFound, s') := by
    rw [heq, hstop]
  have hneb : ¬((listCartItems s c.cart_id).isEmpty = true) := by
    rw [hsplit]
    simp
  have hugot : get_user s uid = some u := hu'
  have hcfind : get_cart s cid = Except.ok c := get_cart_ok_iff.mpr hc
  refine ⟨s', ?_, hos, ⟨new, hoieq, ?_, hoidall, hproj⟩, hcieq, ?_, hcs⟩
  · simp only [place_order, hugot, hcfind]
    rw [if_neg (show ¬(cartTruthy c = false) by simp [cartTruthy])]
    rw [if_neg hneb]
    simp only [hinit, hsplit, hfull]
  · have hlen := congrArg List.length hproj
    simpa using hlen
  · intro x hx
    have hxitems : x ∈ listCartItems s c.cart_id := by
      rw [hsplit]; exact List.mem_append_right _ hx
    have hxmem : x ∈ s.cartItems := (List.mem_filter.mp hxitems).1
    have hxcid : (x.cart_id == c.cart_id) = true := (List.mem_filter.mp hxitems).2
    have hxnotpre : ((pre.map (fun it => it.cart_item_id)).contains x.cart_item_id)
        = false := by
      by_contra hcontra
      obtain ⟨y, hy, hyk⟩ := contains_ids_iff.mp (Bool.not_eq_false _ ▸ hcontra)
      exact hdisj (List.mem_map_of_mem _ hy) (hyk ▸ List.mem_map_of_mem _ hx)
    unfold listCartItems
    rw [hcieq]
    refine List.mem_filter.mpr ⟨List.mem_filter.mpr ⟨hxmem, ?_⟩, hxcid⟩
    rw [hxnotpre]
    rfl

/-- Satisfiability witness for C3: the second of two cart items references the
absent product 9; the order survives with one order item, the first cart item
is gone and the second remains. -/
theorem C3_witness : ∃ s',
    place_order demoMissingProduct 1 1 = (Except.error PErr.productNotFound, s')
      ∧ s'.orders = demoMissingProduct.orders ++ [⟨1, 1, PyVal.bool false, 7⟩]
      ∧ (∃ new, s'.orderItems = demoMissingProduct.orderItems ++ new
          ∧ new.length = [demoItem].length
          ∧ (∀ oi ∈ new, oi.order_id = 1)
          ∧ new.map (fun oi => (oi.product_id, oi.quantity, oi.price))
              = [demoItem].map (fun it =>
                  (it.product_id, it.quantity, priceOf demoMissingProduct it.product_id)))
      ∧ s'.cartItems = demoMissingProduct.cartItems.filter (fun x =>
          !(([demoItem].map (fun it => it.cart_item_id)).contains x.cart_item_id))
      ∧ (∀ x ∈ demoBadItem :: [], x ∈ listCartItems s' demoCart.cart_id)
      ∧ s'.carts = demoMissingProduct.carts :=
  C3_partial_failure demoMissingProduct 1 1 demoCart [demoItem] demoBadItem []
    (by decide) rfl rfl (by decide) (by decide) rfl

/-- C5 counterexample: the claim says every value other than the booleans
`True`/`False` — "for example the integers 1 or 0" — is rejected as
`order_status`.  In the code the check is Python set membership
`order_status not in {True, False}`, and Python's `1 == True` / `0 == False`
make the integers 1 and 0 pass it: construction succeeds and stores the raw
integer, unnormalized. -/
theorem C5_counterexample :
    Order.init 1 1 (PyVal.int 1) Option.none 0 = Except.ok ⟨1, 1, PyVal.int 1, 0⟩
    ∧ Order.init 1 1 (PyVal.int 0) Option.none 0 = Except.ok ⟨1, 1, PyVal.int 0, 0⟩ :=
  ⟨rfl, rfl⟩

/-- C5 (amended): every `order_status` value that is not Python-equal to
`True` or `False` is rejected at `Order` construction; the integers 1 and 0
(which Python compares equal to the booleans) are accepted and stored
unchanged, not normalized; and any role other than 'user' or 'admin' is
rejected at `User` construction. -/
theorem C5_closed_enumerations (oid uid : Int) (hoid : 0 < oid) (huid : 0 < uid)
    (v : PyVal) (hv1 : pyEq v (PyVal.bool true) = false)
    (hv2 : pyEq v (PyVal.bool false) = false)
    (cAt : Option Nat) (now : Nat) (nm pw rl : String)
    (hnm : nm ≠ "") (hpw : pw ≠ "") (hrl1 : rl ≠ "admin") (hrl2 : rl ≠ "user") :
    Order.init oid uid v cAt now = Except.error VErr.orderStatusInvalid
    ∧ Order.init oid uid (PyVal.int 1) cAt now
        = Except.ok ⟨oid, uid, PyVal.int 1, cAt.getD now⟩
    ∧ Order.init oid uid (PyVal.int 0) cAt now
        = Except.ok ⟨oid, uid, PyVal.int 0, cAt.getD now⟩
    ∧ User.init uid nm pw cAt rl now = Except.error VErr.roleInvalid := by
  refine ⟨?_, ?_, ?_, ?_⟩
  · unfold Order.init
    rw [if_neg (by omega), if_neg (by omega), if_pos (by simp [hv1, hv2])]
  · unfold Order.init
    rw [if_neg (by omega), if_neg (by omega), if_neg (by decide)]
  · unfold Order.init
    rw [if_neg (by omega), if_neg (by omega), if_neg (by decide)]
  · unfold User.init
    rw [if_neg (by omega), if_neg hnm, if_neg hpw, if_pos (not_or.mpr ⟨hrl1, hrl2⟩)]

/-- Satisfiability witness for the amended C5 with status `"x"` and role `"king"`. -/
theorem C5_witness :
    Order.init 1 1 (PyVal.str "x") Option.none 0 = Except.error VErr.orderStatusInvalid
    ∧ Order.init 1 1 (PyVal.int 1) Option.none 0 = Except.ok ⟨1, 1, PyVal.int 1, 0⟩
    ∧ Order.init 1 1 (PyVal.int 0) Option.none 0 = Except.ok ⟨1, 1, PyVal.int 0, 0⟩
    ∧ User.init 1 "a" "b" Option.none "king" 0 = Except.error VErr.roleInvalid :=
  C5_closed_enumerations 1 1 (by decide) (by decide) (PyVal.str "x") rfl rfl
    Option.none 0 "a" "b" "king" (by decide) (by decide) (by decide) (by decide)

/-- C6: for every entity constructor and every non-positive value supplied as
an id, price, or quantity — the boundary value zero included — construction
fails with the corresponding validation error: positivity is the strict
`> 0` everywhere.  (`i` is an arbitrary non-positive integer, `q` an arbitrary
non-positive price; the other fields hold arbitrary valid values.) -/
theorem C6_nonpositive_rejected (i : Int) (hi : i ≤ 0) (q : Rat) (hq : q ≤ 0)
    (j : Int) (hj : 0 < j) (pr : Rat)
    (nm : String) (hnm : nm ≠ "") (a b d : String) (u : Option Nat) (now : Nat)
    (v : PyVal) (rl : String) :
    User.init i a b u rl now = Except.error VErr.userIdZero
    ∧ Product.init i a d pr u now = Except.error VErr.productIdZero
    ∧ Product.init j nm d q u now = Except.error VErr.priceZero
    ∧ Cart.init i j u now = Except.error VErr.cartIdZero
    ∧ Cart.init j i u now = Except.error VErr.userIdZero
    ∧ CartItem.init i j j j u = Except.error VErr.cartItemIdZero
    ∧ CartItem.init j i j j u = Except.error VErr.cartIdZero
    ∧ CartItem.init j j i j u = Except.error VErr.productIdZero
    ∧ CartItem.init j j j i u = Except.error VErr.quantityZero
    ∧ Order.init i j v u now = Except.error VErr.orderIdZero
    ∧ Order.init j i v u now = Except.error VErr.userIdZero
    ∧ OrderItem.init i j j j pr u = Except.error VErr.orderItemIdZero
    ∧ OrderItem.init j i j j pr u = Except.error VErr.orderIdZero
    ∧ OrderItem.init j j i j pr u = Except.error VErr.productIdZero
    ∧ OrderItem.init j j j i pr u = Except.error VErr.quantityZero
    ∧ OrderItem.init j j j j q u = Except.error VErr.priceZero := by
  refine ⟨?_, ?_, ?_, ?_, ?_, ?_, ?_, ?_, ?_, ?_, ?_, ?_, ?_, ?_, ?_, ?_⟩
  · unfold User.init
    rw [if_pos hi]
  · unfold Product.init
    rw [if_pos hi]
  · unfold Product.init
    rw [if_neg (by omega), if_neg hnm, if_pos hq]
  · unfold Cart.init
    rw [if_pos hi]
  · unfold Cart.init
    rw [if_neg (by omega), if_pos hi]
  · unfold CartItem.init
    rw [if_pos hi]
  · unfold CartItem.init
    rw [if_neg (by omega), if_pos hi]
  · unfold CartItem.init
    rw [if_neg (by omega), if_neg (by omega), if_pos hi]
  · unfold CartItem.init
    rw [if_neg (by omega), if_neg (by omega), if_neg (by omega), if_pos hi]
  · unfold Order.init
    rw [if_pos hi]
  · unfold Order.init
    rw [if_neg (by omega), if_pos hi]
  · unfold OrderItem.init
    rw [if_pos hi]
  · unfold OrderItem.init
    rw [if_neg (by omega), if_pos hi]
  · unfold OrderItem.init
    rw [if_neg (by omega), if_neg (by omega), if_pos hi]
  · unfold OrderItem.init
    rw [if_neg (by omega), if_neg (by omega), if_neg (by omega), if_pos hi]
  · unfold OrderItem.init
    rw [if_neg (by omega), if_neg (by omega), if_neg (by omega), if_neg (by omega),
      if_pos hq]

/-- Satisfiability witness for C6 at the boundary value zero for every
id/price/quantity position. -/
theorem C6_witness :
    User.init 0 "a" "b" Option.none "user" 0 = Except.error VErr.userIdZero
    ∧ Product.init 0 "a" "d" 1 Option.none 0 = Except.error VErr.productIdZero
    ∧ Product.init 1 "n" "d" 0 Option.none 0 = Except.error VErr.priceZero
    ∧ Cart.init 0 1 Option.none 0 = Except.error VErr.cartIdZero
    ∧ Cart.init 1 0 Option.none 0 = Except.error VErr.userIdZero
    ∧ CartItem.init 0 1 1 1 Option.none = Except.error VErr.cartItemIdZero
    ∧ CartItem.init 1 0 1 1 Option.none = Except.error VErr.cartIdZero
    ∧ CartItem.init 1 1 0 1 Option.none = Except.error VErr.productIdZero
    ∧ CartItem.init 1 1 1 0 Option.none = Except.error VErr.quantityZero
    ∧ Order.init 0 1 (PyVal.bool true) Option.none 0 = Except.error VErr.orderIdZero
    ∧ Order.init 1 0 (PyVal.bool true) Option.none 0 = Except.error VErr.userIdZero
    ∧ OrderItem.init 0 1 1 1 1 Option.none = Except.error VErr.orderItemIdZero
    ∧ OrderItem.init 1 0 1 1 1 Option.none = Except.error VErr.orderIdZero
    ∧ OrderItem.init 1 1 0 1 1 Option.none = Except.error VErr.productIdZero
    ∧ OrderItem.init 1 1 1 0 1 Option.none = Except.error VErr.quantityZero
    ∧ OrderItem.init 1 1 1 1 0 Option.none = Except.error VErr.priceZero :=
  C6_nonpositive_rejected 0 (le_refl 0) 0 (le_refl 0) 1 (by decide) 1
    "n" (by decide) "a" "b" "d" Option.none 0 (PyVal.bool true) "user"

/-- C10: `CartItem.added_at` and `OrderItem.created_at` are stored exactly as
passed, with no default — omitting them leaves `None` — while `User`,
`Product`, `Cart` and `Order` default `created_at` to the current time when it
is not supplied. -/
theorem C10_timestamp_handling (a b c q : Int) (t : Option Nat) (pr : Rat)
    (nm pw d rl : String) (v : PyVal) (now : Nat) :
    (∀ x : CartItem, CartItem.init a b c q t = Except.ok x → x.added_at = t)
    ∧ (∀ x : OrderItem, OrderItem.init a b c q pr t = Except.ok x → x.created_at = t)
    ∧ (∀ x : User, User.init a nm pw Option.none rl now = Except.ok x → x.created_at = now)
    ∧ (∀ x : Product,
        Product.init a nm d pr Option.none now = Except.ok x → x.created_at = now)
    ∧ (∀ x : Cart, Cart.init a b Option.none now = Except.ok x → x.created_at = now)
    ∧ (∀ x : Order,
        Order.init a b v Option.none now = Except.ok x → x.created_at = now) := by
  refine ⟨?_, ?_, ?_, ?_, ?_, ?_⟩
  all_goals intro x h
  · unfold CartItem.init at h
    repeat' split at h
    all_goals first
      | (injection h with h2; subst h2; rfl)
      | injection h
  · unfold OrderItem.init at h
    repeat' split at h
    all_goals first
      | (injection h with h2; subst h2; rfl)
      | injection h
  · unfold User.init at h
    repeat' split at h
    all_goals first
      | (injection h with h2; subst h2; rfl)
      | injection h
  · unfold Product.init at h
    repeat' split at h
    all_goals first
      | (injection h with h2; subst h2; rfl)
      | injection h
  · unfold Cart.init at h
    repeat' split at h
    all_goals first
      | (injection h with h2; subst h2; rfl)
      | injection h
  · unfold Order.init at h
    repeat' split at h
    all_goals first
      | (injection h with h2; subst h2; rfl)
      | injection h

/-- Satisfiability witness for C10: omitted optional timestamps at concrete
constructions — `None` is kept for cart and order items, `now = 7` is filled
in for the four other entities. -/
theorem C10_witness :
    ((⟨1, 1, 1, 1, Option.none⟩ : CartItem).added_at = Option.none)
    ∧ ((⟨1, 1, 1, 1, 1, Option.none⟩ : OrderItem).created_at = Option.none)
    ∧ ((⟨1, "n", "p", 7, "user"⟩ : User).created_at = 7)
    ∧ ((⟨1, "n", "d", 1, 7⟩ : Product).created_at = 7)
    ∧ ((⟨1, 1, 7⟩ : Cart).created_at = 7)
    ∧ ((⟨1, 1, PyVal.bool true, 7⟩ : Order).created_at = 7) :=
  ⟨(C10_timestamp_handling 1 1 1 1 Option.none 1 "n" "p" "d" "user"
      (PyVal.bool true) 7).1 _ rfl,
   (C10_timestamp_handling 1 1 1 1 Option.none 1 "n" "p" "d" "user"
      (PyVal.bool true) 7).2.1 _ rfl,
   (C10_timestamp_handling 1 1 1 1 Option.none 1 "n" "p" "d" "user"
      (PyVal.bool true) 7).2.2.1 _ rfl,
   (C10_timestamp_handling 1 1 1 1 Option.none 1 "n" "p" "d" "user"
      (PyVal.bool true) 7).2.2.2.1 _ rfl,
   (C10_timestamp_handling 1 1 1 1 Option.none 1 "n" "p" "d" "user"
      (PyVal.bool true) 7).2.2.2.2.1 _ rfl,
   (C10_timestamp_handling 1 1 1 1 Option.none 1 "n" "p" "d" "user"
      (PyVal.bool true) 7).2.2.2.2.2 _ rfl⟩

end ShoppingCart
